import Mathlib

/-!
# The TFRT CPU PjRt client: devices, client and executable

A shallow embedding of `tensorflow/compiler/xla/pjrt/tfrt_cpu_pjrt_client.h`.

* `int` is `Int` (no arithmetic in the header can overflow).
* A raw pointer is `Option Nat`: `none` is `nullptr`, `some a` is the address `a`.
  Pointers into a client's `owned_devices_` are positions in that vector.
* `StatusOr<T>` is `Except Status T`.
* A call that ends in `LOG(FATAL)` or in a failed `CHECK` does not return: its
  result is `Outcome.fatal`, carrying the logged text.
* Types that the header only names (`Shape`, `LiteralSlice`, `ChannelHandle`,
  `ExecuteOptions`, ...) are type parameters of the functions that take them.
-/

namespace xla

/-! ## Status values -/

/-- The canonical error codes carried by a `Status`. -/
inductive Code
  | OK
  | CANCELLED
  | UNKNOWN
  | INVALID_ARGUMENT
  | DEADLINE_EXCEEDED
  | NOT_FOUND
  | ALREADY_EXISTS
  | PERMISSION_DENIED
  | RESOURCE_EXHAUSTED
  | FAILED_PRECONDITION
  | ABORTED
  | OUT_OF_RANGE
  | UNIMPLEMENTED
  | INTERNAL
  | UNAVAILABLE
  | DATA_LOSS
  | UNAUTHENTICATED
  deriving DecidableEq, Repr

/-- A `Status`: an error code and a message. -/
structure Status where
  code : Code
  message : String
  deriving DecidableEq, Repr

/-- The test `Status::ok()`. -/
def Status.ok (s : Status) : Bool :=
  s.code == Code.OK

/-- The type `StatusOr<T>`: a value, or the status that explains its absence. -/
abbrev StatusOr (α : Type) : Type := Except Status α

/-- How a call that may hit `LOG(FATAL)` or a failed `CHECK` ends: it hands
control back with a value, or the process is terminated with a logged text. -/
inductive Outcome (α : Type)
  | returned (value : α)
  | fatal (log : String)
  deriving DecidableEq, Repr

/-- Modelled from the spec: the helper `Unimplemented(...)` of the XLA utilities,
which the header calls but does not define. It builds the status of the
"not supported in this configuration" condition (`UnsupportedOperationError`),
code `UNIMPLEMENTED`, with the given text. -/
def Unimplemented (msg : String) : Status :=
  { code := Code.UNIMPLEMENTED, message := msg }

/-- Modelled from the spec: the status of `NotFoundError`, code `NOT_FOUND`. -/
def NotFound (msg : String) : Status :=
  { code := Code.NOT_FOUND, message := msg }

/-! ## The admission limiter -/

/-- Modelled from the spec: the class `Semaphore` of `pjrt/semaphore.h`, which
the header includes but which is not part of it. Section 3 of the spec: "an
integer capacity and a current count of acquired slots". -/
structure Semaphore where
  capacity : Int
  count : Int
  deriving DecidableEq, Repr

/-- Modelled from the spec: construction of a `Semaphore` with a fixed capacity
and no slot acquired. -/
def Semaphore.new (capacity : Int) : Semaphore :=
  { capacity := capacity, count := 0 }

/-- Modelled from the spec: `Semaphore::Acquire`. "Acquisition blocks the
calling logical task when count == capacity"; otherwise it reserves one slot.
`none` stands for the blocked caller, which has changed nothing yet. -/
def Semaphore.Acquire (s : Semaphore) : Option Semaphore :=
  if s.count == s.capacity then none else some { s with count := s.count + 1 }

/-- Modelled from the spec: `Semaphore::Release`. It "returns a previously
acquired slot", "always succeeds and never blocks". -/
def Semaphore.Release (s : Semaphore) : Semaphore :=
  { s with count := s.count - 1 }

/-! ## TfrtCpuDevice -/

/-- A `PjRtClient*`. -/
abbrev ClientPtr : Type := Option Nat

/-- A `PjRtDevice*` or `TfrtCpuDevice*`. -/
abbrev DevicePtr : Type := Option Nat

/-- A `PjRtBuffer*`, also the pointer inside a `std::unique_ptr<PjRtBuffer>`. -/
abbrev BufferPtr : Type := Option Nat

/-- The data members of `TfrtCpuDevice`. -/
structure TfrtCpuDevice where
  id_ : Int
  client_ : ClientPtr
  max_inflight_computations_semaphore_ : Semaphore
  deriving DecidableEq, Repr

/-- The call `SetClient(client)`: `CHECK(client_ == nullptr); client_ = client;`. -/
def TfrtCpuDevice.SetClient (this : TfrtCpuDevice) (client : ClientPtr) :
    Outcome TfrtCpuDevice :=
  if this.client_ == none then
    Outcome.returned { this with client_ := client }
  else
    Outcome.fatal "Check failed: client_ == nullptr"

/-- The accessor `client()`. -/
def TfrtCpuDevice.client (this : TfrtCpuDevice) : ClientPtr :=
  this.client_

/-- The accessor `id()`. -/
def TfrtCpuDevice.id (this : TfrtCpuDevice) : Int :=
  this.id_

/-- The accessor `process_index()`: `return 0;`. -/
def TfrtCpuDevice.process_index (_this : TfrtCpuDevice) : Int :=
  0

/-- The accessor `local_hardware_id()`, used as the device ordinal. -/
def TfrtCpuDevice.local_hardware_id (this : TfrtCpuDevice) : Int :=
  this.id_

/-- The accessor `max_inflight_computations_semaphore()`. -/
def TfrtCpuDevice.max_inflight_computations_semaphore (this : TfrtCpuDevice) : Semaphore :=
  this.max_inflight_computations_semaphore_

/-! ## TfrtCpuClient -/

/-- The data members of `TfrtCpuClient` that the header's functions and the
registry use. `devices_`, `id_to_device_` and `addressable_devices_` hold
pointers into `owned_devices_`, here positions in it; `id_to_device_` is the
hash map from `Device::id()` to the device, kept as a list of entries. -/
structure TfrtCpuClient where
  process_index_ : Int
  owned_devices_ : List TfrtCpuDevice
  devices_ : List Nat
  id_to_device_ : List (Int × Nat)
  addressable_devices_ : List Nat
  deriving DecidableEq, Repr

/-- The accessor `process_index()`. -/
def TfrtCpuClient.process_index (this : TfrtCpuClient) : Int :=
  this.process_index_

/-- The accessor `device_count()`. -/
def TfrtCpuClient.device_count (this : TfrtCpuClient) : Int :=
  this.devices_.length

/-- The accessor `addressable_device_count()`. -/
def TfrtCpuClient.addressable_device_count (this : TfrtCpuClient) : Int :=
  this.addressable_devices_.length

/-- The call `IsAddressable()` of a device:
`return process_index() == client()->process_index();`. The pointer `client()`
is followed in `heap`, which tells which client lives at an address; following
a null or dangling pointer has no defined result (`none`). -/
def TfrtCpuDevice.IsAddressable (heap : Nat → Option TfrtCpuClient) (this : TfrtCpuDevice) :
    Option Bool :=
  match this.client with
  | none => none
  | some a =>
    match heap a with
    | none => none
    | some c => some (this.process_index == c.process_index)

/-- The call `CreateUninitializedBuffer(shape, device)`. -/
def TfrtCpuClient.CreateUninitializedBuffer {Shape : Type} (_this : TfrtCpuClient)
    (_shape : Shape) (_device : DevicePtr) : StatusOr BufferPtr :=
  Except.error (Unimplemented "CreateUninitializedBuffer")

/-- The call `BufferFromHostBuffer(data, shape, host_buffer_semantics,
on_done_with_host_buffer, device)`. -/
def TfrtCpuClient.BufferFromHostBuffer {Shape HostBufferSemantics Callback : Type}
    (_this : TfrtCpuClient) (_data : Option Nat) (_shape : Shape)
    (_host_buffer_semantics : HostBufferSemantics) (_on_done_with_host_buffer : Callback)
    (_device : DevicePtr) : StatusOr BufferPtr :=
  Except.error (Unimplemented "BufferFromHostBuffer")

/-- The call `BufferFromHostLiteral(literal, device)`. -/
def TfrtCpuClient.BufferFromHostLiteral {LiteralSlice : Type} (_this : TfrtCpuClient)
    (_literal : LiteralSlice) (_device : DevicePtr) : StatusOr BufferPtr :=
  Except.error (Unimplemented "BufferFromHostLiteral")

/-- The call `MakeCrossHostReceiveBuffers(shapes, device, notifier)`:
`LOG(FATAL) << "MakeCrossHostReceiveBuffers not implemented.";`. The function
returns `void`; the notifier is never called. -/
def TfrtCpuClient.MakeCrossHostReceiveBuffers {Shape Notifier : Type} (_this : TfrtCpuClient)
    (_shapes : List Shape) (_device : DevicePtr) (_notifier : Notifier) : Outcome Unit :=
  Outcome.fatal "MakeCrossHostReceiveBuffers not implemented."

/-- The call `CreateViewOfDeviceBuffer(device_ptr, shape, device, on_delete_callback)`. -/
def TfrtCpuClient.CreateViewOfDeviceBuffer {Shape Callback : Type} (_this : TfrtCpuClient)
    (_device_ptr : Option Nat) (_shape : Shape) (_device : DevicePtr)
    (_on_delete_callback : Callback) : StatusOr BufferPtr :=
  Except.error (Unimplemented "CreateViewOfDeviceBuffer not implemented.")

/-- The call `CreateChannelHandle()`. -/
def TfrtCpuClient.CreateChannelHandle {ChannelHandle : Type} (_this : TfrtCpuClient) :
    StatusOr ChannelHandle :=
  Except.error (Unimplemented "CreateChannelHandle not implemented.")

/-- The call `CreateDeviceToHostChannelHandle()`. -/
def TfrtCpuClient.CreateDeviceToHostChannelHandle {ChannelHandle : Type}
    (_this : TfrtCpuClient) : StatusOr ChannelHandle :=
  Except.error (Unimplemented "CreateDeviceToHostChannelHandle not implemented.")

/-- The call `CreateHostToDeviceChannelHandle()`. -/
def TfrtCpuClient.CreateHostToDeviceChannelHandle {ChannelHandle : Type}
    (_this : TfrtCpuClient) : StatusOr ChannelHandle :=
  Except.error (Unimplemented "CreateHostToDeviceChannelHandle not implemented.")

/-- The call `Defragment(buffers, executables)`; it returns a bare `Status`. -/
def TfrtCpuClient.Defragment (_this : TfrtCpuClient) (_buffers : List BufferPtr)
    (_executables : List (Option Nat)) : Status :=
  Unimplemented "Defragment not implemented."

/-- Modelled from the spec: the constructor `TfrtCpuClient(process_index, devices,
host_ctx)`, declared in the header and defined outside it. Section 4.2:
"Construction enumerates devices once, partitions them into full vs. addressable
sets preserving discovery order, and builds the id-lookup mapping". This is the
lookup mapping for the devices stored from position `pos` on. -/
def TfrtCpuClient.idMap : Nat → List TfrtCpuDevice → List (Int × Nat)
  | _, [] => []
  | pos, d :: ds => (d.id, pos) :: TfrtCpuClient.idMap (pos + 1) ds

/-- Modelled from the spec: the constructor `TfrtCpuClient(process_index, devices,
host_ctx)` (see `TfrtCpuClient.idMap`). The addressable devices are "the subset
whose process index equals the local process". The host context plays no part
in the registry and is left out. -/
def TfrtCpuClient.new (process_index : Int) (devices : List TfrtCpuDevice) : TfrtCpuClient :=
  { process_index_ := process_index
    owned_devices_ := devices
    devices_ := List.range devices.length
    id_to_device_ := TfrtCpuClient.idMap 0 devices
    addressable_devices_ := (List.range devices.length).filter fun p =>
      match devices[p]? with
      | some d => d.process_index == process_index
      | none => false }

/-- The device a `TfrtCpuDevice*` of this client points to. -/
def TfrtCpuClient.deref (this : TfrtCpuClient) (p : DevicePtr) : Option TfrtCpuDevice :=
  match p with
  | none => none
  | some pos => this.owned_devices_[pos]?

/-- Modelled from the spec: `LookupDevice(device_id)`, declared in the header and
defined outside it. Section 4.2: it "returns the Device for a known id or fails
with `NotFoundError` for an unknown id". -/
def TfrtCpuClient.LookupDevice (this : TfrtCpuClient) (device_id : Int) : StatusOr DevicePtr :=
  match this.id_to_device_.lookup device_id with
  | some pos => Except.ok (some pos)
  | none => Except.error (NotFound "No matching device found for device_id")

/-! ## TfrtCpuExecutable -/

/-- Modelled from the spec: one entry of the compiled program's input/output
aliasing metadata: the compiler has aliased parameter position `parameter` to
the result at `output_index`. -/
structure AliasEntry where
  output_index : Nat
  parameter : Int
  deriving DecidableEq, Repr

/-- Modelled from the spec: the compiled program behind `cpu_executable_` (class
`Executable` of the XLA service), as far as the header and the donation logic
read it. -/
structure Executable where
  name : String
  SizeOfGeneratedCodeInBytes : Int
  input_output_alias : List AliasEntry
  deriving DecidableEq, Repr

/-- The data members of `TfrtCpuExecutable`. A `DeviceAssignment` is the table of
device ids indexed by replica, then partition; a `LogicalDeviceIds` is a pair
(replica, partition); `absl::flat_hash_set<int>` is a list without repetition. -/
structure TfrtCpuExecutable where
  client_ : Option Nat
  num_replicas_ : Int
  num_partitions_ : Int
  device_assignment_ : List (List Int)
  parameter_is_tupled_arguments_ : Bool
  cpu_executable_ : Executable
  result_buffer_index_ : Int
  result_buffer_indices_ : List Int
  parameters_that_must_be_donated_ : List Int
  addressable_device_logical_ids_ : List (Int × Int)
  addressable_devices_ : List DevicePtr
  deriving DecidableEq, Repr

/-- A call made from an execution attempt to a device's admission limiter or to
the execution engine, named by the id of the device concerned. -/
inductive Effect
  | Acquire (device_id : Int)
  | Release (device_id : Int)
  | RunCompiled (device_id : Int)
  deriving DecidableEq, Repr

/-- What an execution attempt can touch outside the executable: the devices
(with their admission limiters) and the record of the calls made so far to
limiters and engine, oldest first. -/
structure World where
  devices : List TfrtCpuDevice
  calls : List Effect
  deriving DecidableEq, Repr

/-- The call `Execute(argument_handles, options)`. -/
def TfrtCpuExecutable.Execute {ExecuteOptions : Type} (_this : TfrtCpuExecutable)
    (_argument_handles : List (List BufferPtr)) (_options : ExecuteOptions) (w : World) :
    StatusOr (List (List BufferPtr)) × World :=
  (Except.error (Unimplemented "Execute not implemented."), w)

/-- The call `ExecuteSharded(argument_handles, device, options)`. -/
def TfrtCpuExecutable.ExecuteSharded {ExecuteOptions : Type} (_this : TfrtCpuExecutable)
    (_argument_handles : List BufferPtr) (_device : DevicePtr) (_options : ExecuteOptions)
    (w : World) : StatusOr (List BufferPtr) × World :=
  (Except.error (Unimplemented "ExecuteSharded not implemented."), w)

/-- The call `ExecutePortable(argument_handles, device, options)`. -/
def TfrtCpuExecutable.ExecutePortable {ExecuteOptions : Type} (_this : TfrtCpuExecutable)
    (_argument_handles : List BufferPtr) (_device : DevicePtr) (_options : ExecuteOptions)
    (w : World) : StatusOr (List BufferPtr) × World :=
  (Except.error (Unimplemented "ExecutePortable not implemented."), w)

/-- The call `ExecuteHelper(argument_handles, replica, partition, run_id, options,
device)`. -/
def TfrtCpuExecutable.ExecuteHelper {RunId ExecuteOptions : Type} (_this : TfrtCpuExecutable)
    (_argument_handles : List BufferPtr) (_replica : Int) (_partition : Int) (_run_id : RunId)
    (_options : ExecuteOptions) (_device : DevicePtr) (w : World) :
    StatusOr (List BufferPtr) × World :=
  (Except.error (Unimplemented "ExecuteHelper not implemented."), w)

/-- Modelled from the spec: the constructor of `TfrtCpuExecutable`, declared in the
header and defined outside it. It stores its arguments; the donation set is
filled in afterwards by `SetUpDonation`. -/
def TfrtCpuExecutable.new (num_replicas num_partitions : Int)
    (device_assignment : List (List Int)) (parameter_is_tupled_arguments : Bool)
    (cpu_executable : Executable) (result_buffer_index : Int)
    (result_buffer_indices : List Int) (addressable_device_logical_ids : List (Int × Int))
    (addressable_devices : List DevicePtr) (client : Option Nat) : TfrtCpuExecutable :=
  { client_ := client
    num_replicas_ := num_replicas
    num_partitions_ := num_partitions
    device_assignment_ := device_assignment
    parameter_is_tupled_arguments_ := parameter_is_tupled_arguments
    cpu_executable_ := cpu_executable
    result_buffer_index_ := result_buffer_index
    result_buffer_indices_ := result_buffer_indices
    parameters_that_must_be_donated_ := []
    addressable_device_logical_ids_ := addressable_device_logical_ids
    addressable_devices_ := addressable_devices }

/-- Modelled from the spec: `SetUpDonation(tuple_inputs)`, declared in the header
and defined outside it. Section 4.4, step 3: "a parameter position is in this
set if and only if the compiler has aliased it to some result". The spec gives
the flag no effect on the set. -/
def TfrtCpuExecutable.SetUpDonation (this : TfrtCpuExecutable) (_tuple_inputs : Bool) :
    Status × TfrtCpuExecutable :=
  ({ code := Code.OK, message := "" },
   { this with
     parameters_that_must_be_donated_ :=
       (this.cpu_executable_.input_output_alias.map AliasEntry.parameter).dedup })

/-- Modelled from the spec: `MustDonateParameter(parameter)`, declared in the
header and defined outside it. Section 4.4: "a membership check against the
precomputed set". -/
def TfrtCpuExecutable.MustDonateParameter (this : TfrtCpuExecutable) (parameter : Int) : Bool :=
  this.parameters_that_must_be_donated_.contains parameter

/-- Modelled from the spec: construction of an Executable Record at compile time
(section 4.4): the constructor, then `SetUpDonation` with the tupling flag. -/
def TfrtCpuExecutable.compiled (num_replicas num_partitions : Int)
    (device_assignment : List (List Int)) (parameter_is_tupled_arguments : Bool)
    (cpu_executable : Executable) (result_buffer_index : Int)
    (result_buffer_indices : List Int) (addressable_device_logical_ids : List (Int × Int))
    (addressable_devices : List DevicePtr) (client : Option Nat) : TfrtCpuExecutable :=
  ((TfrtCpuExecutable.new num_replicas num_partitions device_assignment
      parameter_is_tupled_arguments cpu_executable result_buffer_index result_buffer_indices
      addressable_device_logical_ids addressable_devices client).SetUpDonation
    parameter_is_tupled_arguments).2

/-! ## Execution attempts and the admission limiter -/

/-- Modelled from the spec: the constructor `TfrtCpuDevice(id, asynchronous)`,
declared in the header and defined outside it. The client is unset and the
limiter has no slot acquired; "capacity is fixed at device construction", and
the number itself, which the spec does not give, is the parameter `capacity`. -/
def TfrtCpuDevice.new (capacity : Bool → Int) (id : Int) (asynchronous : Bool) : TfrtCpuDevice :=
  { id_ := id
    client_ := none
    max_inflight_computations_semaphore_ := Semaphore.new (capacity asynchronous) }

/-- The number of acquired slots of a device's limiter. -/
def acquiredSlots (d : TfrtCpuDevice) : Int :=
  d.max_inflight_computations_semaphore.count

/-- The capacity of a device's limiter. -/
def capacity (d : TfrtCpuDevice) : Int :=
  d.max_inflight_computations_semaphore.capacity

/-! ## Sequences of operations on a device -/

/-- The operations on a `TfrtCpuDevice` whose code is in the header: `SetClient`;
the `const` member functions (`client`, `IsAddressable`, `id`, `process_index`,
`local_hardware_id`), which cannot change the object; and `Acquire` and
`Release` on the limiter handed out by `max_inflight_computations_semaphore()`. -/
inductive DeviceOp
  | SetClient (client : ClientPtr)
  | constCall
  | Acquire
  | Release
  deriving DecidableEq, Repr

/-- One operation on a device. -/
def TfrtCpuDevice.applyOp (this : TfrtCpuDevice) : DeviceOp → Outcome TfrtCpuDevice
  | DeviceOp.SetClient c => this.SetClient c
  | DeviceOp.constCall => Outcome.returned this
  | DeviceOp.Acquire =>
    match this.max_inflight_computations_semaphore.Acquire with
    | none => Outcome.returned this
    | some s => Outcome.returned { this with max_inflight_computations_semaphore_ := s }
  | DeviceOp.Release =>
    Outcome.returned
      { this with
        max_inflight_computations_semaphore_ :=
          this.max_inflight_computations_semaphore.Release }

/-- A sequence of operations on a device, in order. The result is the last state
of the device and, when an operation ended the process, the logged text; no
operation runs after that one. -/
def TfrtCpuDevice.runOps (this : TfrtCpuDevice) : List DeviceOp → TfrtCpuDevice × Option String
  | [] => (this, none)
  | op :: ops =>
    match this.applyOp op with
    | Outcome.returned d => d.runOps ops
    | Outcome.fatal log => (this, some log)

/-! ## A registry of four devices -/

/-- Four devices with ids 0, 1, 2, 3, each with a limiter of capacity 1. -/
def fourDevices : List TfrtCpuDevice :=
  [TfrtCpuDevice.new (fun _ => 1) 0 false, TfrtCpuDevice.new (fun _ => 1) 1 false,
   TfrtCpuDevice.new (fun _ => 1) 2 false, TfrtCpuDevice.new (fun _ => 1) 3 false]

/-- The world of the four devices before any call to a limiter or to the engine. -/
def fourDeviceWorld : World :=
  { devices := fourDevices, calls := [] }

/-- An executable for 4 replicas and 1 partition on the four devices, replica `r`
assigned to device id `r`, whose program aliases parameter 2 to the sole result. -/
def fourReplicaExecutable : TfrtCpuExecutable :=
  TfrtCpuExecutable.compiled 4 1 [[0], [1], [2], [3]] false
    { name := "main", SizeOfGeneratedCodeInBytes := 0,
      input_output_alias := [{ output_index := 0, parameter := 2 }] }
    0 [0] [(0, 0), (1, 0), (2, 0), (3, 0)] [some 0, some 1, some 2, some 3] (some 0)

/-! ## Unsupported client operations -/

/-- Every status built by `Unimplemented` carries the code `UNIMPLEMENTED` and is
not `ok`. -/
theorem Unimplemented_code (msg : String) :
    (Unimplemented msg).code = Code.UNIMPLEMENTED ∧ (Unimplemented msg).ok = false := by
  constructor <;> rfl

/-- C1: for every two client states `c`, `c'` and every two argument lists, each
of `CreateChannelHandle`, `CreateDeviceToHostChannelHandle`,
`CreateHostToDeviceChannelHandle`, `BufferFromHostBuffer`, `BufferFromHostLiteral`,
`CreateUninitializedBuffer` and `CreateViewOfDeviceBuffer` returns an error whose
code is `UNIMPLEMENTED`, never a value, and `Defragment` returns a status with that
code, which is not `ok`; the result for `c'` and the primed arguments is the same
as for `c` and the unprimed ones, so it depends neither on the arguments nor on
what earlier calls did to the client. -/
theorem unsupported_operations_return_Unimplemented
    {Shape HostBufferSemantics Callback LiteralSlice ChannelHandle : Type}
    (c c' : TfrtCpuClient) (shape shape' : Shape) (device device' : DevicePtr)
    (data data' : Option Nat) (semantics semantics' : HostBufferSemantics)
    (callback callback' : Callback) (literal literal' : LiteralSlice)
    (buffers buffers' : List BufferPtr) (executables executables' : List (Option Nat)) :
    ((∃ s, (c.CreateChannelHandle : StatusOr ChannelHandle) = Except.error s
          ∧ s.code = Code.UNIMPLEMENTED)
      ∧ (∀ v, (c.CreateChannelHandle : StatusOr ChannelHandle) ≠ Except.ok v)
      ∧ (c'.CreateChannelHandle : StatusOr ChannelHandle) = c.CreateChannelHandle)
    ∧ ((∃ s, (c.CreateDeviceToHostChannelHandle : StatusOr ChannelHandle) = Except.error s
          ∧ s.code = Code.UNIMPLEMENTED)
      ∧ (∀ v, (c.CreateDeviceToHostChannelHandle : StatusOr ChannelHandle) ≠ Except.ok v)
      ∧ (c'.CreateDeviceToHostChannelHandle : StatusOr ChannelHandle)
          = c.CreateDeviceToHostChannelHandle)
    ∧ ((∃ s, (c.CreateHostToDeviceChannelHandle : StatusOr ChannelHandle) = Except.error s
          ∧ s.code = Code.UNIMPLEMENTED)
      ∧ (∀ v, (c.CreateHostToDeviceChannelHandle : StatusOr ChannelHandle) ≠ Except.ok v)
      ∧ (c'.CreateHostToDeviceChannelHandle : StatusOr ChannelHandle)
          = c.CreateHostToDeviceChannelHandle)
    ∧ ((c.Defragment buffers executables).code = Code.UNIMPLEMENTED
      ∧ (c.Defragment buffers executables).ok = false
      ∧ c'.Defragment buffers' executables' = c.Defragment buffers executables)
    ∧ ((∃ s, c.BufferFromHostBuffer data shape semantics callback device = Except.error s
          ∧ s.code = Code.UNIMPLEMENTED)
      ∧ (∀ v, c.BufferFromHostBuffer data shape semantics callback device ≠ Except.ok v)
      ∧ c'.BufferFromHostBuffer data' shape' semantics' callback' device'
          = c.BufferFromHostBuffer data shape semantics callback device)
    ∧ ((∃ s, c.BufferFromHostLiteral literal device = Except.error s
          ∧ s.code = Code.UNIMPLEMENTED)
      ∧ (∀ v, c.BufferFromHostLiteral literal device ≠ Except.ok v)
      ∧ c'.BufferFromHostLiteral literal' device' = c.BufferFromHostLiteral literal device)
    ∧ ((∃ s, c.CreateUninitializedBuffer shape device = Except.error s
          ∧ s.code = Code.UNIMPLEMENTED)
      ∧ (∀ v, c.CreateUninitializedBuffer shape device ≠ Except.ok v)
      ∧ c'.CreateUninitializedBuffer shape' device' = c.CreateUninitializedBuffer shape device)
    ∧ ((∃ s, c.CreateViewOfDeviceBuffer data shape device callback = Except.error s
          ∧ s.code = Code.UNIMPLEMENTED)
      ∧ (∀ v, c.CreateViewOfDeviceBuffer data shape device callback ≠ Except.ok v)
      ∧ c'.CreateViewOfDeviceBuffer data' shape' device' callback'
          = c.CreateViewOfDeviceBuffer data shape device callback) := by
  refine ⟨⟨⟨_, rfl, rfl⟩, ?_, rfl⟩, ⟨⟨_, rfl, rfl⟩, ?_, rfl⟩, ⟨⟨_, rfl, rfl⟩, ?_, rfl⟩,
    ⟨rfl, rfl, rfl⟩, ⟨⟨_, rfl, rfl⟩, ?_, rfl⟩, ⟨⟨_, rfl, rfl⟩, ?_, rfl⟩,
    ⟨⟨_, rfl, rfl⟩, ?_, rfl⟩, ⟨⟨_, rfl, rfl⟩, ?_, rfl⟩⟩ <;>
  · intro v h
    cases h

/-- C2, as stated, fails: on the client of the four devices, with no shapes, a null
device and a trivial notifier, `MakeCrossHostReceiveBuffers` does not hand control
back to its caller with any result. -/
theorem MakeCrossHostReceiveBuffers_does_not_return :
    ¬ ∃ r : Unit, (TfrtCpuClient.new 0 fourDevices).MakeCrossHostReceiveBuffers
        ([] : List Unit) none () = Outcome.returned r := by
  rintro ⟨r, h⟩
  cases h

/-- C2, amended: for every client, list of shapes, device and notifier,
`MakeCrossHostReceiveBuffers` reports the unsupported operation by logging
"MakeCrossHostReceiveBuffers not implemented." at fatal severity, which ends the
process: the call is no silent no-op, and it never returns to its caller. -/
theorem MakeCrossHostReceiveBuffers_is_fatal {Shape Notifier : Type} (c : TfrtCpuClient)
    (shapes : List Shape) (device : DevicePtr) (notifier : Notifier) :
    c.MakeCrossHostReceiveBuffers shapes device notifier
        = Outcome.fatal "MakeCrossHostReceiveBuffers not implemented."
      ∧ ∀ r, c.MakeCrossHostReceiveBuffers shapes device notifier ≠ Outcome.returned r := by
  refine ⟨rfl, ?_⟩
  intro r h
  cases h

/-! ## Execution attempts -/

/-- C3: whatever `Delete` does to an executable `e`, each of `Execute`,
`ExecuteSharded` and `ExecutePortable` called afterwards, with any argument
handles, device and options, returns an error (code `UNIMPLEMENTED`) and no output
buffers; the result is the one obtained on any other executable `e'`, so no field
of the executable enters it. -/
theorem execution_after_Delete_fails {ExecuteOptions : Type}
    (Delete : TfrtCpuExecutable → TfrtCpuExecutable) (e e' : TfrtCpuExecutable)
    (argument_lists : List (List BufferPtr)) (argument_handles : List BufferPtr)
    (device : DevicePtr) (options : ExecuteOptions) (w : World) :
    ((∃ s, ((Delete e).Execute argument_lists options w).1 = Except.error s
          ∧ s.code = Code.UNIMPLEMENTED)
      ∧ (∀ outputs, ((Delete e).Execute argument_lists options w).1 ≠ Except.ok outputs)
      ∧ ((Delete e).Execute argument_lists options w).1
          = (e'.Execute argument_lists options w).1)
    ∧ ((∃ s, ((Delete e).ExecuteSharded argument_handles device options w).1 = Except.error s
          ∧ s.code = Code.UNIMPLEMENTED)
      ∧ (∀ outputs,
          ((Delete e).ExecuteSharded argument_handles device options w).1 ≠ Except.ok outputs)
      ∧ ((Delete e).ExecuteSharded argument_handles device options w).1
          = (e'.ExecuteSharded argument_handles device options w).1)
    ∧ ((∃ s, ((Delete e).ExecutePortable argument_handles device options w).1 = Except.error s
          ∧ s.code = Code.UNIMPLEMENTED)
      ∧ (∀ outputs,
          ((Delete e).ExecutePortable argument_handles device options w).1 ≠ Except.ok outputs)
      ∧ ((Delete e).ExecutePortable argument_handles device options w).1
          = (e'.ExecutePortable argument_handles device options w).1) := by
  refine ⟨⟨⟨_, rfl, rfl⟩, ?_, rfl⟩, ⟨⟨_, rfl, rfl⟩, ?_, rfl⟩, ⟨⟨_, rfl, rfl⟩, ?_, rfl⟩⟩ <;>
  · intro v h
    cases h

/-- C4, as stated, fails: with the four devices 0, 1, 2, 3 and the assignment of
replica `r` to device `r`, an execution for replica 2 (through `ExecuteHelper`,
through `ExecuteSharded` on device 2, or through `Execute`) makes no `Acquire`
call on the limiter of device 2, and afterwards that limiter has no slot acquired. -/
theorem Execute_replica_2_acquires_nothing :
    Effect.Acquire 2 ∉
        (fourReplicaExecutable.ExecuteHelper [] 2 0 () () (some 2) fourDeviceWorld).2.calls
      ∧ Effect.Acquire 2 ∉
        (fourReplicaExecutable.ExecuteSharded [] (some 2) () fourDeviceWorld).2.calls
      ∧ Effect.Acquire 2 ∉ (fourReplicaExecutable.Execute [[], [], [], []] () fourDeviceWorld).2.calls
      ∧ (fourReplicaExecutable.ExecuteHelper [] 2 0 () () (some 2) fourDeviceWorld).2.devices.map
          acquiredSlots = [0, 0, 0, 0] := by
  decide

/-- C4, amended: every execution attempt (`Execute`, `ExecuteSharded`,
`ExecutePortable`, `ExecuteHelper`) on any executable, for any replica, partition,
device and arguments, returns the `UNIMPLEMENTED` error and leaves the world as it
was: it records no `Acquire`, no `Release` and no run of the engine, and every
device's limiter is unchanged. -/
theorem execution_attempts_touch_no_limiter {RunId ExecuteOptions : Type}
    (e : TfrtCpuExecutable) (argument_lists : List (List BufferPtr))
    (argument_handles : List BufferPtr) (replica partition : Int) (run_id : RunId)
    (device : DevicePtr) (options : ExecuteOptions) (w : World) :
    e.Execute argument_lists options w
        = (Except.error (Unimplemented "Execute not implemented."), w)
      ∧ e.ExecuteSharded argument_handles device options w
        = (Except.error (Unimplemented "ExecuteSharded not implemented."), w)
      ∧ e.ExecutePortable argument_handles device options w
        = (Except.error (Unimplemented "ExecutePortable not implemented."), w)
      ∧ e.ExecuteHelper argument_handles replica partition run_id options device w
        = (Except.error (Unimplemented "ExecuteHelper not implemented."), w) :=
  ⟨rfl, rfl, rfl, rfl⟩

/-! ## The device registry -/

/-- An entry found in the lookup mapping built from position `pos` on points to a
stored device that has the key as its id. -/
theorem idMap_lookup_some (ds : List TfrtCpuDevice) :
    ∀ (pos : Nat) (k : Int) (p : Nat), (TfrtCpuClient.idMap pos ds).lookup k = some p →
      pos ≤ p ∧ ∃ d, ds[p - pos]? = some d ∧ d.id = k := by
  induction ds with
  | nil =>
    intro pos k p h
    simp [TfrtCpuClient.idMap] at h
  | cons d ds ih =>
    intro pos k p h
    by_cases hk : k = d.id
    · subst hk
      simp [TfrtCpuClient.idMap, List.lookup] at h
      subst h
      exact ⟨le_refl _, d, by simp, rfl⟩
    · have hb : (k == d.id) = false := by simpa using hk
      simp only [TfrtCpuClient.idMap, List.lookup, hb] at h
      obtain ⟨hle, d', hd', hid⟩ := ih (pos + 1) k p h
      refine ⟨by omega, d', ?_, hid⟩
      have hp : p - pos = (p - (pos + 1)) + 1 := by omega
      rw [hp]
      simpa using hd'

/-- A key of the lookup mapping is found by `lookup`. -/
theorem idMap_lookup_isSome (ds : List TfrtCpuDevice) :
    ∀ (pos : Nat) (k : Int), k ∈ (TfrtCpuClient.idMap pos ds).map Prod.fst →
      ∃ p, (TfrtCpuClient.idMap pos ds).lookup k = some p := by
  induction ds with
  | nil =>
    intro pos k h
    simp [TfrtCpuClient.idMap] at h
  | cons d ds ih =>
    intro pos k h
    by_cases hk : k = d.id
    · subst hk
      exact ⟨pos, by simp [TfrtCpuClient.idMap, List.lookup]⟩
    · have hb : (k == d.id) = false := by simpa using hk
      have h' : k ∈ (TfrtCpuClient.idMap (pos + 1) ds).map Prod.fst := by
        simpa [TfrtCpuClient.idMap, hk] using h
      obtain ⟨p, hp⟩ := ih (pos + 1) k h'
      exact ⟨p, by simp only [TfrtCpuClient.idMap, List.lookup, hb, hp]⟩

/-- An id that is no key of the lookup mapping is not found by `lookup`. -/
theorem idMap_lookup_none (ds : List TfrtCpuDevice) :
    ∀ (pos : Nat) (k : Int), k ∉ (TfrtCpuClient.idMap pos ds).map Prod.fst →
      (TfrtCpuClient.idMap pos ds).lookup k = none := by
  induction ds with
  | nil =>
    intro pos k _
    simp [TfrtCpuClient.idMap]
  | cons d ds ih =>
    intro pos k h
    have hk : k ≠ d.id := by
      intro hk
      exact h (by simp [TfrtCpuClient.idMap, hk])
    have hb : (k == d.id) = false := by simpa using hk
    have h' : k ∉ (TfrtCpuClient.idMap (pos + 1) ds).map Prod.fst := by
      intro hmem
      exact h (by simp only [TfrtCpuClient.idMap, List.map_cons, List.mem_cons]; exact Or.inr hmem)
    simp only [TfrtCpuClient.idMap, List.lookup, hb]
    exact ih (pos + 1) k h'

/-- The keys of the lookup mapping are the ids of the stored devices. -/
theorem idMap_keys (ds : List TfrtCpuDevice) :
    ∀ (pos : Nat), (TfrtCpuClient.idMap pos ds).map Prod.fst = ds.map TfrtCpuDevice.id := by
  induction ds with
  | nil =>
    intro pos
    rfl
  | cons d ds ih =>
    intro pos
    simp [TfrtCpuClient.idMap, ih (pos + 1)]

/-- C5: for the client built from any process index and any list of devices, and
for every device id: if the id is a key of `id_to_device_`, then `LookupDevice`
succeeds and the pointer it returns is to a device of the client whose `id()` is the
queried id; if the id is no key of `id_to_device_`, that is, no device of the
registry has it, then `LookupDevice` fails with a `NOT_FOUND` error. -/
theorem LookupDevice_known_and_unknown (process_index : Int) (devices : List TfrtCpuDevice)
    (device_id : Int) :
    (device_id ∈ (TfrtCpuClient.new process_index devices).id_to_device_.map Prod.fst →
        ∃ p d, (TfrtCpuClient.new process_index devices).LookupDevice device_id = Except.ok p
          ∧ (TfrtCpuClient.new process_index devices).deref p = some d
          ∧ d.id = device_id)
      ∧ (device_id ∉ (TfrtCpuClient.new process_index devices).id_to_device_.map Prod.fst →
        (∃ s, (TfrtCpuClient.new process_index devices).LookupDevice device_id = Except.error s
          ∧ s.code = Code.NOT_FOUND)
        ∧ ∀ d ∈ devices, d.id ≠ device_id) := by
  constructor
  · intro hkey
    obtain ⟨p, hp⟩ := idMap_lookup_isSome devices 0 device_id hkey
    obtain ⟨_, d, hd, hid⟩ := idMap_lookup_some devices 0 device_id p hp
    refine ⟨some p, d, ?_, ?_, hid⟩
    · simp only [TfrtCpuClient.LookupDevice, TfrtCpuClient.new, hp]
    · simpa [TfrtCpuClient.deref, TfrtCpuClient.new] using hd
  · intro hkey
    have hnone := idMap_lookup_none devices 0 device_id hkey
    refine ⟨⟨NotFound "No matching device found for device_id", ?_, rfl⟩, ?_⟩
    · simp only [TfrtCpuClient.LookupDevice, TfrtCpuClient.new, hnone]
    · intro d hd hid
      apply hkey
      simp only [TfrtCpuClient.new, idMap_keys, List.mem_map]
      exact ⟨d, hd, hid⟩

/-- C5 on the registry of the four devices: id 2 is a key and is resolved to the
device with id 2; id 7 is no key and is not found. -/
theorem LookupDevice_known_and_unknown_witness :
    (∃ p d, (TfrtCpuClient.new 0 fourDevices).LookupDevice 2 = Except.ok p
        ∧ (TfrtCpuClient.new 0 fourDevices).deref p = some d ∧ d.id = 2)
      ∧ ((∃ s, (TfrtCpuClient.new 0 fourDevices).LookupDevice 7 = Except.error s
          ∧ s.code = Code.NOT_FOUND)
        ∧ ∀ d ∈ fourDevices, d.id ≠ 7) :=
  ⟨(LookupDevice_known_and_unknown 0 fourDevices 2).1 (by decide),
   (LookupDevice_known_and_unknown 0 fourDevices 7).2 (by decide)⟩

/-! ## Donation -/

/-- C6: for every executable `e` and parameter index `p`, `MustDonateParameter(p)`
is true exactly when `p` is in `parameters_that_must_be_donated_`. For the
executable built at compile time from a program, that set holds exactly the
parameters that the program's input/output aliasing aliases to some result: with
no aliasing the set is empty and the answer is false for every `p`; with parameter
2 aliased to the sole result the answer is true for 2 and false for 0. -/
theorem MustDonateParameter_iff_member (e : TfrtCpuExecutable) (p : Int)
    (num_replicas num_partitions : Int) (device_assignment : List (List Int))
    (tupled : Bool) (program : Executable) (result_buffer_index : Int)
    (result_buffer_indices : List Int) (logical_ids : List (Int × Int))
    (addressable_devices : List DevicePtr) (client : Option Nat) (o : Nat) :
    (e.MustDonateParameter p = true ↔ p ∈ e.parameters_that_must_be_donated_)
      ∧ ((TfrtCpuExecutable.compiled num_replicas num_partitions device_assignment tupled
            program result_buffer_index result_buffer_indices logical_ids addressable_devices
            client).MustDonateParameter p = true
          ↔ ∃ a ∈ program.input_output_alias, a.parameter = p)
      ∧ (program.input_output_alias = [] →
          (TfrtCpuExecutable.compiled num_replicas num_partitions device_assignment tupled
            program result_buffer_index result_buffer_indices logical_ids addressable_devices
            client).parameters_that_must_be_donated_ = []
          ∧ (TfrtCpuExecutable.compiled num_replicas num_partitions device_assignment tupled
            program result_buffer_index result_buffer_indices logical_ids addressable_devices
            client).MustDonateParameter p = false)
      ∧ (program.input_output_alias = [{ output_index := o, parameter := 2 }] →
          (TfrtCpuExecutable.compiled num_replicas num_partitions device_assignment tupled
            program result_buffer_index result_buffer_indices logical_ids addressable_devices
            client).MustDonateParameter 2 = true
          ∧ (TfrtCpuExecutable.compiled num_replicas num_partitions device_assignment tupled
            program result_buffer_index result_buffer_indices logical_ids addressable_devices
            client).MustDonateParameter 0 = false) := by
  refine ⟨?_, ?_, ?_, ?_⟩
  · simp [TfrtCpuExecutable.MustDonateParameter]
  · simp [TfrtCpuExecutable.MustDonateParameter, TfrtCpuExecutable.compiled,
      TfrtCpuExecutable.SetUpDonation, TfrtCpuExecutable.new]
  · intro h
    simp [TfrtCpuExecutable.MustDonateParameter, TfrtCpuExecutable.compiled,
      TfrtCpuExecutable.SetUpDonation, TfrtCpuExecutable.new, h]
  · intro h
    simp [TfrtCpuExecutable.MustDonateParameter, TfrtCpuExecutable.compiled,
      TfrtCpuExecutable.SetUpDonation, TfrtCpuExecutable.new, h]

/-- C6 on two programs: one without aliasing, for which parameter 1 need not be
donated, and the program of `fourReplicaExecutable`, which aliases parameter 2 to
the sole result. -/
theorem MustDonateParameter_iff_member_witness :
    ((TfrtCpuExecutable.compiled 1 1 [[0]] false
          { name := "main", SizeOfGeneratedCodeInBytes := 0, input_output_alias := [] }
          0 [0] [(0, 0)] [some 0] (some 0)).parameters_that_must_be_donated_ = []
        ∧ (TfrtCpuExecutable.compiled 1 1 [[0]] false
          { name := "main", SizeOfGeneratedCodeInBytes := 0, input_output_alias := [] }
          0 [0] [(0, 0)] [some 0] (some 0)).MustDonateParameter 1 = false)
      ∧ ((TfrtCpuExecutable.compiled 4 1 [[0], [1], [2], [3]] false
          { name := "main", SizeOfGeneratedCodeInBytes := 0,
            input_output_alias := [{ output_index := 0, parameter := 2 }] }
          0 [0] [(0, 0), (1, 0), (2, 0), (3, 0)] [some 0, some 1, some 2, some 3]
          (some 0)).MustDonateParameter 2 = true
        ∧ (TfrtCpuExecutable.compiled 4 1 [[0], [1], [2], [3]] false
          { name := "main", SizeOfGeneratedCodeInBytes := 0,
            input_output_alias := [{ output_index := 0, parameter := 2 }] }
          0 [0] [(0, 0), (1, 0), (2, 0), (3, 0)] [some 0, some 1, some 2, some 3]
          (some 0)).MustDonateParameter 0 = false) :=
  ⟨(MustDonateParameter_iff_member fourReplicaExecutable 1 1 1 [[0]] false
      { name := "main", SizeOfGeneratedCodeInBytes := 0, input_output_alias := [] }
      0 [0] [(0, 0)] [some 0] (some 0) 0).2.2.1 rfl,
   (MustDonateParameter_iff_member fourReplicaExecutable 1 4 1 [[0], [1], [2], [3]] false
      { name := "main", SizeOfGeneratedCodeInBytes := 0,
        input_output_alias := [{ output_index := 0, parameter := 2 }] }
      0 [0] [(0, 0), (1, 0), (2, 0), (3, 0)] [some 0, some 1, some 2, some 3]
      (some 0) 0).2.2.2 rfl⟩

/-! ## The admission limiter under execution attempts -/

/-- C8: for a device whose `client()` points to a client `c`, `IsAddressable()`
returns whether the device's `process_index()` equals `c.process_index()`; the
device's `process_index()` is 0, so the device is addressable exactly when the
process index that `c` holds since its construction is 0. -/
theorem IsAddressable_iff_process_index (heap : Nat → Option TfrtCpuClient)
    (d : TfrtCpuDevice) (a : Nat) (c : TfrtCpuClient)
    (hclient : d.client = some a) (hheap : heap a = some c) :
    d.IsAddressable heap = some (d.process_index == c.process_index)
      ∧ (d.IsAddressable heap = some true ↔ d.process_index = c.process_index)
      ∧ d.process_index = 0
      ∧ (d.IsAddressable heap = some true ↔ c.process_index_ = 0)
      ∧ (d.IsAddressable heap = some false ↔ c.process_index_ ≠ 0) := by
  have h : d.IsAddressable heap = some (d.process_index == c.process_index) := by
    simp only [TfrtCpuDevice.IsAddressable, hclient, hheap]
  refine ⟨h, ?_, rfl, ?_, ?_⟩
  · rw [h]
    simp only [Option.some.injEq, beq_iff_eq]
  · rw [h]
    simp only [TfrtCpuDevice.process_index, TfrtCpuClient.process_index, Option.some.injEq,
      beq_iff_eq]
    exact eq_comm
  · rw [h]
    simp only [TfrtCpuDevice.process_index, TfrtCpuClient.process_index, Option.some.injEq,
      beq_eq_false_iff_ne]
    exact ne_comm

/-- C8 on device 2 bound to a client at address 7: with the client's process index
0 the device is addressable. -/
theorem IsAddressable_iff_process_index_witness :
    TfrtCpuDevice.IsAddressable
        (fun a => if a = 7 then some (TfrtCpuClient.new 0 fourDevices) else none)
        { id_ := 2, client_ := some 7, max_inflight_computations_semaphore_ := Semaphore.new 1 }
      = some true :=
  ((IsAddressable_iff_process_index
      (fun a => if a = 7 then some (TfrtCpuClient.new 0 fourDevices) else none)
      { id_ := 2, client_ := some 7, max_inflight_computations_semaphore_ := Semaphore.new 1 }
      7 (TfrtCpuClient.new 0 fourDevices) rfl rfl).2.2.2.1).2 rfl

/-- An operation that returns leaves `id_` as it was, and leaves a non-null
`client_` as it was. -/
theorem applyOp_returned (d d' : TfrtCpuDevice) (op : DeviceOp)
    (h : d.applyOp op = Outcome.returned d') :
    d'.id_ = d.id_ ∧ (d.client_ ≠ none → d'.client_ = d.client_) := by
  cases op with
  | SetClient c =>
    by_cases hc : d.client_ = none
    · simp [TfrtCpuDevice.applyOp, TfrtCpuDevice.SetClient, hc] at h
      subst h
      exact ⟨rfl, fun hne => absurd hc hne⟩
    · simp [TfrtCpuDevice.applyOp, TfrtCpuDevice.SetClient, hc] at h
  | constCall =>
    simp [TfrtCpuDevice.applyOp] at h
    subst h
    exact ⟨rfl, fun _ => rfl⟩
  | Acquire =>
    cases hacq : d.max_inflight_computations_semaphore.Acquire with
    | none =>
      simp [TfrtCpuDevice.applyOp, hacq] at h
      subst h
      exact ⟨rfl, fun _ => rfl⟩
    | some s =>
      simp [TfrtCpuDevice.applyOp, hacq] at h
      subst h
      exact ⟨rfl, fun _ => rfl⟩
  | Release =>
    simp [TfrtCpuDevice.applyOp] at h
    subst h
    exact ⟨rfl, fun _ => rfl⟩

/-- A sequence of operations leaves `id_` as it was, and leaves a non-null
`client_` as it was. -/
theorem runOps_keeps (ops : List DeviceOp) :
    ∀ d : TfrtCpuDevice,
      (d.runOps ops).1.id_ = d.id_
        ∧ (d.client_ ≠ none → (d.runOps ops).1.client_ = d.client_) := by
  induction ops with
  | nil =>
    intro d
    exact ⟨rfl, fun _ => rfl⟩
  | cons op ops ih =>
    intro d
    cases hop : d.applyOp op with
    | returned d' =>
      obtain ⟨hid, hcl⟩ := applyOp_returned d d' op hop
      obtain ⟨hid', hcl'⟩ := ih d'
      have hrun : d.runOps (op :: ops) = d'.runOps ops := by
        simp only [TfrtCpuDevice.runOps, hop]
      rw [hrun]
      refine ⟨by rw [hid', hid], fun hne => ?_⟩
      have hd' : d'.client_ = d.client_ := hcl hne
      rw [hcl' (by rw [hd']; exact hne), hd']
    | fatal log =>
      have hrun : d.runOps (op :: ops) = (d, some log) := by
        simp only [TfrtCpuDevice.runOps, hop]
      rw [hrun]
      exact ⟨rfl, fun _ => rfl⟩

/-- C9: for every device and every sequence of operations on it (`SetClient` with
any client among them), the device reached has the same `process_index()`, the same
`id()` and the same `local_hardware_id()` as the device at the start;
`process_index()` is 0 in every state. -/
theorem device_identity_never_changes (d : TfrtCpuDevice) (ops : List DeviceOp) :
    (d.runOps ops).1.process_index = d.process_index
      ∧ (d.runOps ops).1.id = d.id
      ∧ (d.runOps ops).1.local_hardware_id = d.local_hardware_id
      ∧ d.process_index = 0 :=
  ⟨rfl, (runOps_keeps ops d).1, (runOps_keeps ops d).1, rfl⟩

/-- C10: on a device whose client is unset, `SetClient(c)` returns, after it
`client()` is `c`, and the id and the limiter are as before; on a device whose
client is non-null, `SetClient(c')` fails its `CHECK` for every `c'`; and after
any sequence of operations on such a device `client()` is still the same. -/
theorem SetClient_binds_at_most_once (d : TfrtCpuDevice) (c c' : ClientPtr)
    (ops : List DeviceOp) :
    (d.client = none →
        ∃ d', d.SetClient c = Outcome.returned d' ∧ d'.client = c ∧ d'.id_ = d.id_
          ∧ d'.max_inflight_computations_semaphore_ = d.max_inflight_computations_semaphore_)
      ∧ (d.client ≠ none →
        d.SetClient c' = Outcome.fatal "Check failed: client_ == nullptr"
          ∧ (∀ d', d.SetClient c' ≠ Outcome.returned d')
          ∧ (d.runOps ops).1.client = d.client) := by
  constructor
  · intro h
    have h' : d.client_ = none := h
    exact ⟨{ d with client_ := c }, by simp [TfrtCpuDevice.SetClient, h'], rfl, rfl, rfl⟩
  · intro h
    have h' : d.client_ ≠ none := h
    have hset : d.SetClient c' = Outcome.fatal "Check failed: client_ == nullptr" := by
      simp [TfrtCpuDevice.SetClient, h']
    refine ⟨hset, ?_, (runOps_keeps ops d).2 h'⟩
    intro d' hd'
    rw [hset] at hd'
    cases hd'

/-- C10 on a fresh device: binding client 7 succeeds; on the bound device, binding
client 9 fails the `CHECK`, and a sequence that tries to rebind leaves client 7. -/
theorem SetClient_binds_at_most_once_witness :
    (∃ d', (TfrtCpuDevice.new (fun _ => 1) 2 false).SetClient (some 7) = Outcome.returned d'
        ∧ d'.client = some 7 ∧ d'.id_ = (TfrtCpuDevice.new (fun _ => 1) 2 false).id_
        ∧ d'.max_inflight_computations_semaphore_
          = (TfrtCpuDevice.new (fun _ => 1) 2 false).max_inflight_computations_semaphore_)
      ∧ (TfrtCpuDevice.SetClient
            { id_ := 2, client_ := some 7, max_inflight_computations_semaphore_ := Semaphore.new 1 }
            (some 9)
          = Outcome.fatal "Check failed: client_ == nullptr"
        ∧ (∀ d', TfrtCpuDevice.SetClient
            { id_ := 2, client_ := some 7, max_inflight_computations_semaphore_ := Semaphore.new 1 }
            (some 9) ≠ Outcome.returned d')
        ∧ (TfrtCpuDevice.runOps
            { id_ := 2, client_ := some 7, max_inflight_computations_semaphore_ := Semaphore.new 1 }
            [DeviceOp.Acquire, DeviceOp.SetClient none, DeviceOp.Release]).1.client
          = some 7) :=
  ⟨(SetClient_binds_at_most_once (TfrtCpuDevice.new (fun _ => 1) 2 false) (some 7) none []).1 rfl,
   (SetClient_binds_at_most_once
      { id_ := 2, client_ := some 7, max_inflight_computations_semaphore_ := Semaphore.new 1 }
      none (some 9) [DeviceOp.Acquire, DeviceOp.SetClient none, DeviceOp.Release]).2
      (by decide)⟩

end xla
